import Mathlib

set_option maxRecDepth 100000

/-!
Shallow embedding of the `app-idea-hunter` services and verification of the
behavioural claims made by its specification.

The embedding translates, from the Python source:
* `app/services/deduplication_service.py` — URL stripping, tokenisation and the
  SHA-1 content fingerprint (`generate_hash`);
* `app/services/sentiment_analyzer.py` — the negative/idea admission predicates
  (the external VADER scorer is abstracted as a function parameter);
* `app/services/complaint_processor.py` — the batch processing pipeline;
* `app/services/cost_monitor.py` — usage recording, trailing-window mean and
  the cost guard;
* `app/services/ai_service.py` — response parsing and schema validation;
* `app/scrapers/base_scraper.py` — the retry loop, rate-limit handling and
  failure records.

Machine reals (Python floats) are modelled as `Rat`; all quantities involved in
the claims are exact in both models.  Timestamps are modelled as integer
seconds.  Bounded recursion is written with an explicit fuel argument equal to
an a-priori bound on the number of iterations, so that every definition reduces
by structural recursion.
-/

namespace AppIdeaHunter

/-! ## Generic string helpers (Python semantics, ASCII level) -/

/-- Does `hay` start with `pre` (elementwise)? -/
def startsWithList : List Char → List Char → Bool
  | [], _ => true
  | _ :: _, [] => false
  | p :: ps, h :: hs => p = h && startsWithList ps hs

/-- Python `needle in hay` substring containment. -/
def containsSub (hay needle : List Char) : Bool :=
  match hay with
  | [] => needle.isEmpty
  | _ :: t => startsWithList needle hay || containsSub t needle

/-- `pre` is an initial segment of the string `s`. -/
def strStartsWith (pre s : String) : Bool :=
  startsWithList pre.toList s.toList

/-- Characters removed by Python `str.strip()` (ASCII whitespace). -/
def isSpaceChar (c : Char) : Bool :=
  c = ' ' || c = '\t' || c = '\n' || c = '\r' || c = '\x0b' || c = '\x0c'

/-- Python `str.strip()`. -/
def pyStrip (s : String) : String :=
  String.mk (((s.toList.dropWhile isSpaceChar).reverse.dropWhile isSpaceChar).reverse)

/-- Python `str.lower()` (ASCII case folding). -/
def pyLower (s : String) : String :=
  String.mk (s.toList.map Char.toLower)

/-- Python `int(s)`: strip whitespace, optional sign, ASCII digits; `none` models
`ValueError`. -/
def pyParseInt (s : String) : Option Int :=
  let t := (pyStrip s).toList
  let core : Int × List Char :=
    match t with
    | '-' :: rest => (-1, rest)
    | '+' :: rest => (1, rest)
    | l => (1, l)
  if core.2.isEmpty || !core.2.all Char.isDigit then none
  else some (core.1 * ((core.2.foldl (fun acc c => acc * 10 + (c.toNat - 48)) 0 : Nat) : Int))

/-! ## Deduplication service (`deduplication_service.py`)

`_tokenize` removes URLs with the regex
`http[s]?://(?:[a-zA-Z]|[0-9]|[$-_@.&+]|[!*\\(\\),]|(?:%[0-9a-fA-F][0-9a-fA-F]))+`,
lowercases, and extracts `\b\w+\b` word tokens (maximal runs of word
characters).  `generate_hash` joins the first `token_limit` tokens with single
spaces and returns the lowercase-hex SHA-1 of the UTF-8 bytes. -/

/-- A character matched by the body of the URL regex: the alternatives
`[a-zA-Z]`, `[0-9]`, `[$-_@.&+]` (a range from `$` 0x24 to `_` 0x5F plus
redundant members), `[!*\\(\\),]`, and the `%hh` escape (whose leading `%` is
already inside the 0x24–0x5F range, so single-character matching suffices). -/
def urlBodyChar (c : Char) : Bool :=
  (c.isAlpha) || (c.isDigit) ||
  (0x24 ≤ c.toNat && c.toNat ≤ 0x5F) ||
  c = '!' || c = '*' || c = '\\' || c = '(' || c = ')' || c = ','

/-- Length of the maximal run of characters satisfying `p`. -/
def runLength (p : Char → Bool) : List Char → Nat
  | [] => 0
  | c :: rest => if p c then runLength p rest + 1 else 0

/-- If the regex matches at the head of `l`, the number of characters of the
(leftmost-longest) match: the scheme `http://` or `https://` followed by at
least one `urlBodyChar`. -/
def matchUrlLen (l : List Char) : Option Nat :=
  if startsWithList "https://".toList l then
    let k := runLength urlBodyChar (l.drop 8)
    if k = 0 then none else some (8 + k)
  else if startsWithList "http://".toList l then
    let k := runLength urlBodyChar (l.drop 7)
    if k = 0 then none else some (7 + k)
  else none

/-- `re.sub(url_regex, '', text)`: left-to-right scan deleting every match.
`fuel` bounds the number of steps; each step consumes at least one character,
so `fuel = l.length` never runs out. -/
def stripUrlsFuel : Nat → List Char → List Char
  | 0, l => l
  | _ + 1, [] => []
  | fuel + 1, c :: rest =>
    match matchUrlLen (c :: rest) with
    | some n => stripUrlsFuel fuel (rest.drop (n - 1))
    | none => c :: stripUrlsFuel fuel rest

def stripUrls (l : List Char) : List Char :=
  stripUrlsFuel l.length l

/-- A `\w` word character after lowercasing (ASCII): letter, digit or `_`. -/
def isWordChar (c : Char) : Bool :=
  c.isAlpha || c.isDigit || c = '_'

/-- `re.findall(r'\b\w+\b', s)`: the maximal runs of word characters, in
order.  `acc` holds the characters of the current run in reverse. -/
def splitTokensAux : List Char → List Char → List (List Char)
  | [], acc => if acc.isEmpty then [] else [acc.reverse]
  | c :: rest, acc =>
    if isWordChar c then splitTokensAux rest (c :: acc)
    else if acc.isEmpty then splitTokensAux rest []
    else acc.reverse :: splitTokensAux rest []

/-- `DeduplicationService._tokenize`: strip URLs (on the original text), then
lowercase and extract word tokens. -/
def tokenize (text : String) : List String :=
  (splitTokensAux ((stripUrls text.toList).map Char.toLower) []).map String.mk

/-! ### SHA-1 (the `hashlib.sha1` primitive), over `Nat` with explicit `% 2^32` -/

/-- UTF-8 encoding of one character, as byte values. -/
def utf8Bytes (c : Char) : List Nat :=
  let n := c.toNat
  if n < 0x80 then [n]
  else if n < 0x800 then
    [0xC0 ||| (n >>> 6), 0x80 ||| (n &&& 0x3F)]
  else if n < 0x10000 then
    [0xE0 ||| (n >>> 12), 0x80 ||| ((n >>> 6) &&& 0x3F), 0x80 ||| (n &&& 0x3F)]
  else
    [0xF0 ||| (n >>> 18), 0x80 ||| ((n >>> 12) &&& 0x3F),
     0x80 ||| ((n >>> 6) &&& 0x3F), 0x80 ||| (n &&& 0x3F)]

/-- UTF-8 bytes of a string. -/
def strUtf8 (s : String) : List Nat :=
  (s.toList.map utf8Bytes).flatten

/-- Big-endian bytes of `v`, `numBytes` wide. -/
def beBytes (numBytes v : Nat) : List Nat :=
  (List.range numBytes).map (fun i => (v >>> (8 * (numBytes - 1 - i))) &&& 0xFF)

/-- SHA-1 message padding: `0x80`, zeros to 56 mod 64, then the 64-bit
big-endian bit length. -/
def sha1Pad (msg : List Nat) : List Nat :=
  msg ++ [0x80] ++ List.replicate ((119 - msg.length % 64) % 64) 0 ++ beBytes 8 (8 * msg.length)

/-- Group bytes into big-endian 32-bit words. -/
def bytesToWords : List Nat → List Nat
  | b0 :: b1 :: b2 :: b3 :: rest =>
    ((((b0 <<< 8) ||| b1) <<< 8 ||| b2) <<< 8 ||| b3) :: bytesToWords rest
  | _ => []

/-- Split a word list into blocks of 16; `fuel ≥ ws.length` suffices. -/
def chunk16 : Nat → List Nat → List (List Nat)
  | 0, _ => []
  | _ + 1, [] => []
  | fuel + 1, ws => ws.take 16 :: chunk16 fuel (ws.drop 16)

/-- Rotate a 32-bit word left by `n`. -/
def rotl (n x : Nat) : Nat :=
  (((x <<< n) % 4294967296) ||| (x >>> (32 - n)))

/-- Extend the 16 block words to 80: `fuel` counts the remaining extension
steps and `acc` holds the words produced so far, most recent first. -/
def extendWords : Nat → List Nat → List Nat
  | 0, acc => acc.reverse
  | fuel + 1, acc =>
    let w := rotl 1 ((acc.getD 2 0) ^^^ (acc.getD 7 0) ^^^ (acc.getD 13 0) ^^^ (acc.getD 15 0))
    extendWords fuel (w :: acc)

/-- The 80 compression rounds; `i` is the round index. -/
def sha1Rounds : List Nat → Nat → Nat × Nat × Nat × Nat × Nat → Nat × Nat × Nat × Nat × Nat
  | [], _, st => st
  | w :: ws, i, (a, b, c, d, e) =>
    let f :=
      if i < 20 then (b &&& c) ||| ((b ^^^ 0xFFFFFFFF) &&& d)
      else if i < 40 then b ^^^ c ^^^ d
      else if i < 60 then (b &&& c) ||| (b &&& d) ||| (c &&& d)
      else b ^^^ c ^^^ d
    let k :=
      if i < 20 then 0x5A827999
      else if i < 40 then 0x6ED9EBA1
      else if i < 60 then 0x8F1BBCDC
      else 0xCA62C1D6
    let temp := (rotl 5 a + f + e + k + w) % 4294967296
    sha1Rounds ws (i + 1) (temp, a, rotl 30 b, c, d)

/-- The SHA-1 running state. -/
structure Sha1State where
  h0 : Nat
  h1 : Nat
  h2 : Nat
  h3 : Nat
  h4 : Nat
  deriving Repr, DecidableEq

/-- Compress one 16-word block into the state. -/
def sha1Block (st : Sha1State) (block : List Nat) : Sha1State :=
  let ws := extendWords 64 block.reverse
  let r := sha1Rounds ws 0 (st.h0, st.h1, st.h2, st.h3, st.h4)
  ⟨(st.h0 + r.1) % 4294967296, (st.h1 + r.2.1) % 4294967296,
   (st.h2 + r.2.2.1) % 4294967296, (st.h3 + r.2.2.2.1) % 4294967296,
   (st.h4 + r.2.2.2.2) % 4294967296⟩

/-- Lowercase hex digit. -/
def hexDigit (n : Nat) : Char :=
  if n < 10 then Char.ofNat (48 + n) else Char.ofNat (87 + n)

/-- Lowercase hex rendering of `v`, zero-padded to `width` digits. -/
def toHexPad (width v : Nat) : List Char :=
  (List.range width).map (fun i => hexDigit ((v >>> (4 * (width - 1 - i))) &&& 0xF))

/-- Lowercase-hex SHA-1 digest of a byte sequence. -/
def sha1Hex (msg : List Nat) : String :=
  let ws := bytesToWords (sha1Pad msg)
  let st := (chunk16 ws.length ws).foldl sha1Block ⟨0x67452301, 0xEFCDAB89, 0x98BADCFE, 0x10325476, 0xC3D2E1F0⟩
  String.mk (toHexPad 8 st.h0 ++ toHexPad 8 st.h1 ++ toHexPad 8 st.h2 ++
             toHexPad 8 st.h3 ++ toHexPad 8 st.h4)

/-- `DeduplicationService.generate_hash`: SHA-1 of the first `tokenLimit`
tokens joined by single spaces, UTF-8 encoded, lowercase hex. -/
def generate_hash (tokenLimit : Nat) (text : String) : String :=
  sha1Hex (strUtf8 (String.intercalate " " ((tokenize text).take tokenLimit)))

/-! ## Sentiment analyzer (`sentiment_analyzer.py`)

`analyze` delegates to the external VADER library
(`SentimentIntensityAnalyzer.polarity_scores(...)['compound']`); the scorer is
therefore a field of the analyzer structure rather than a concrete function.
`is_negative_complaint` and `is_idea_or_request` are translated exactly. -/

structure SentimentAnalyzer where
  /-- The VADER compound score of a text (external library, abstracted). -/
  score : String → Rat
  /-- The filtering threshold (`-0.3` as configured by `ComplaintProcessor`). -/
  threshold : Rat

/-- `SentimentAnalyzer.analyze`: the compound score. -/
def analyze (sa : SentimentAnalyzer) (text : String) : Rat :=
  sa.score text

/-- `SentimentAnalyzer.is_negative_complaint`: score strictly below the
threshold. -/
def is_negative_complaint (sa : SentimentAnalyzer) (text : String) : Bool :=
  decide (analyze sa text < sa.threshold)

/-- The keyword list of `is_idea_or_request`. -/
def ideaKeywords : List String :=
  ["i wish", "would be great", "should have", "needs to", "if only",
   "please add", "can you add", "hope they add", "is there an app",
   "can someone make", "why isn’t there"]

/-- `SentimentAnalyzer.is_idea_or_request`: some keyword occurs in the
lowercased text. -/
def is_idea_or_request (text : String) : Bool :=
  ideaKeywords.any (fun kw => containsSub (pyLower text).toList kw.toList)

/-! ## Complaint processing pipeline (`complaint_processor.py`)

The `Complaint` model keeps the fields the pipeline writes; the open metadata
map is represented by the one flag the pipeline stores into it (`is_idea`),
and the wall-clock `scraped_at` timestamp is omitted. -/

structure Complaint where
  source : String
  source_url : Option String
  content : String
  content_hash : String
  sentiment_score : Rat
  /-- `metadata['is_idea']`, set by the pipeline. -/
  is_idea : Bool
  deriving Repr, DecidableEq

/-- One raw candidate of `complaints_data`: `data.get('content', '')`,
`data.get('source', '')`, `data.get('source_url')`. -/
structure RawItem where
  content : String
  source : String
  source_url : Option String
  deriving Repr, DecidableEq

/-- The statistics dictionary of `batch_process_complaints`. -/
structure BatchStats where
  total : Nat
  processed : Nat
  filtered_sentiment : Nat
  filtered_duplicate : Nat
  filtered_idea : Nat
  errors : Nat
  deriving Repr, DecidableEq

/-- The `Complaint` object constructed for an accepted candidate. -/
def mkComplaint (sa : SentimentAnalyzer) (tokenLimit : Nat) (data : RawItem) : Complaint :=
  { source := data.source
    source_url := data.source_url
    content := data.content
    content_hash := generate_hash tokenLimit data.content
    sentiment_score := analyze sa data.content
    is_idea := is_idea_or_request data.content }

/-- The loop body of `batch_process_complaints` for one candidate.  The state
is the accepted list so far, the in-batch hash set (as a list) and the
statistics. -/
def batchStep (sa : SentimentAnalyzer) (tokenLimit : Nat) (existingHashes : List String)
    (st : List Complaint × List String × BatchStats) (data : RawItem) :
    List Complaint × List String × BatchStats :=
  let (acc, batchHashes, stats) := st
  if data.content = "" || data.source = "" then
    (acc, batchHashes, { stats with errors := stats.errors + 1 })
  else
    let is_negative := is_negative_complaint sa data.content
    let is_idea := is_idea_or_request data.content
    if !(is_negative || is_idea) then
      (acc, batchHashes, { stats with filtered_sentiment := stats.filtered_sentiment + 1 })
    else
      let content_hash := generate_hash tokenLimit data.content
      if batchHashes.contains content_hash || existingHashes.contains content_hash then
        (acc, batchHashes, { stats with filtered_duplicate := stats.filtered_duplicate + 1 })
      else
        (acc ++ [mkComplaint sa tokenLimit data],
         content_hash :: batchHashes,
         { stats with
             processed := stats.processed + 1
             filtered_idea := stats.filtered_idea + (if is_idea then 1 else 0) })

/-- `ComplaintProcessor.batch_process_complaints`: fold the loop body over the
candidates in input order, starting from the hash set pre-loaded from the
store (`existingHashes`) and an empty in-batch set. -/
def batch_process_complaints (sa : SentimentAnalyzer) (tokenLimit : Nat)
    (existingHashes : List String) (complaintsData : List RawItem) :
    List Complaint × BatchStats :=
  let init : List Complaint × List String × BatchStats :=
    ([], [],
     { total := complaintsData.length, processed := 0, filtered_sentiment := 0,
       filtered_duplicate := 0, filtered_idea := 0, errors := 0 })
  let r := complaintsData.foldl (batchStep sa tokenLimit existingHashes) init
  (r.1, r.2.2)

/-! ## Cost monitor (`cost_monitor.py`)

Timestamps are integer seconds (`datetime` values compare like their epoch
seconds); `now` is passed explicitly where the Python code calls
`datetime.utcnow()`.  Floats are `Rat` — `statistics.mean` of integers and the
guard comparison are exact in the ranges the claims use. -/

/-- One entry of `usage_history` as written by `record_usage`. -/
structure UsageRecord where
  /-- `timestamp`, in epoch seconds. -/
  timestamp : Int
  complaint_length : Nat
  tokens_used : Nat
  cost : Rat
  idea_generated : Bool
  tokens_per_char : Rat
  deriving Repr, DecidableEq

/-- `CostMonitor.record_usage`: append a record (the `tokens_per_char`
division is guarded by the truthiness test `if complaint_text`), then keep
only the last 1000 records. -/
def record_usage (history : List UsageRecord) (now : Int)
    (complaintText : String) (tokensUsed : Nat) (cost : Rat)
    (ideaGenerated : Bool) : List UsageRecord :=
  let r : UsageRecord :=
    { timestamp := now
      complaint_length := complaintText.length
      tokens_used := tokensUsed
      cost := cost
      idea_generated := ideaGenerated
      tokens_per_char :=
        if complaintText = "" then 0
        else (tokensUsed : Rat) / (complaintText.length : Rat) }
  let h := history ++ [r]
  if h.length > 1000 then h.drop (h.length - 1000) else h

/-- The records within the trailing window:
`datetime.fromisoformat(record['timestamp']) > cutoff_date` with
`cutoff_date = now - days * 86400` seconds. -/
def recentRecords (history : List UsageRecord) (now : Int) (days : Nat) : List UsageRecord :=
  history.filter (fun r => decide (now - (days : Int) * 86400 < r.timestamp))

/-- `CostMonitor.get_mean_tokens_per_complaint`: arithmetic mean of
`tokens_used` over the in-window records with `idea_generated`, `0.0` when
there are none. -/
def get_mean_tokens_per_complaint (history : List UsageRecord) (now : Int) (days : Nat) : Rat :=
  let recent := (recentRecords history now days).filter (fun r => r.idea_generated)
  if recent.isEmpty then 0
  else ((recent.map (fun r => (r.tokens_used : Rat))).sum) / (recent.length : Rat)

/-- `CostMonitor.get_total_cost`: sum of `cost` over the in-window records. -/
def get_total_cost (history : List UsageRecord) (now : Int) (days : Nat) : Rat :=
  ((recentRecords history now days).map (fun r => r.cost)).sum

/-- The result dictionary of `check_cost_guard` (the two timestamp-style
fields are omitted; `threshold_exceeded = !passed` is kept implicitly). -/
structure CostGuardResult where
  passed : Bool
  mean_tokens_per_complaint : Rat
  threshold : Nat
  total_cost_period : Rat
  total_requests_period : Nat
  deriving Repr, DecidableEq

/-- `CostMonitor.check_cost_guard`: fails iff the trailing-window mean exceeds
`max_tokens_per_complaint`. -/
def check_cost_guard (maxTokensPerComplaint : Nat) (history : List UsageRecord)
    (now : Int) (days : Nat) : CostGuardResult :=
  let mean := get_mean_tokens_per_complaint history now days
  let thresholdExceeded := decide (mean > (maxTokensPerComplaint : Rat))
  { passed := !thresholdExceeded
    mean_tokens_per_complaint := mean
    threshold := maxTokensPerComplaint
    total_cost_period := get_total_cost history now days
    total_requests_period := (recentRecords history now days).length }

/-! ## AI service response parsing (`ai_service.py`)

`_parse_response` decodes the response body with `json.loads` and validates
the result.  Decoding is represented by its outcome: `Except.error e` stands
for `json.JSONDecodeError` with message `e`, `Except.ok payload` for a decoded
JSON object (the dict the validation walks).  JSON values are Python values
after `json.loads`; a JSON boolean decodes to a Python `bool`, a subclass of
`int`, and is therefore represented by `PyVal.int`. -/

inductive PyVal where
  | str (s : String)
  /-- An `int` (including `bool`: `isinstance(True, int)` holds). -/
  | int (n : Int)
  /-- A `float` (never an `int` for `isinstance`). -/
  | float (q : Rat)
  | none_
  | list (xs : List PyVal)
  deriving Repr

/-- The rendering of a score value inside the f-string
`f"Invalid score for ...: ..."` (exact for the `int` values the claims use). -/
def pyValStr : PyVal → String
  | .str s => s
  | .int n => toString n
  | .float q => toString q
  | .none_ => "None"
  | .list _ => "[...]"

/-- A raised Python exception: its class name and message. -/
structure PyErr where
  kind : String
  msg : String
  deriving Repr, DecidableEq

/-- `required_fields` of `_parse_response`. -/
def required_fields : List String :=
  ["idea", "score_market", "score_tech", "score_competition",
   "score_monetisation", "score_feasibility", "score_overall"]

/-- `[f for f in required_fields if f.startswith('score_')]`. -/
def score_fields : List String :=
  required_fields.filter (fun f => strStartsWith "score_" f)

/-- `isinstance(score, int) and 1 <= score <= 10`. -/
def scoreOk : Option PyVal → Bool
  | some (.int n) => decide (1 ≤ n) && decide (n ≤ 10)
  | _ => false

/-- `AIService._parse_response`, from the decoding outcome on.  A
`json.JSONDecodeError` is re-raised as
`ValueError("Invalid JSON response: ...")`; the validation `ValueError`s
raised inside the `try` block are re-raised unchanged by the generic handler.
The `raw_response` bookkeeping attached to a successful result is omitted;
the function returns the validated payload. -/
def parse_response (decoded : Except String (List (String × PyVal))) :
    Except PyErr (List (String × PyVal)) :=
  match decoded with
  | .error e => .error ⟨"ValueError", "Invalid JSON response: " ++ e⟩
  | .ok idea_data =>
    match required_fields.find? (fun f => (idea_data.lookup f).isNone) with
    | some f => .error ⟨"ValueError", "Missing required field: " ++ f⟩
    | none =>
      match score_fields.find? (fun f => !scoreOk (idea_data.lookup f)) with
      | some f =>
        .error ⟨"ValueError",
                "Invalid score for " ++ f ++ ": " ++ pyValStr ((idea_data.lookup f).getD .none_)⟩
      | none =>
        match idea_data.lookup "idea" with
        | some (.str s) =>
          if (pyStrip s).toList.length = 0 then
            .error ⟨"ValueError", "Idea text cannot be empty"⟩
          else .ok idea_data
        | _ => .error ⟨"ValueError", "Idea text cannot be empty"⟩

/-! ## Base scraper retry logic (`base_scraper.py`)

The outcome of each HTTP attempt is a parameter (`attempt k` is what the
`k`-th request does); `random.uniform(0, 1)` jitter draws are likewise a
parameter.  The loop returns whether a response was obtained, the
`failed_urls` records appended, and the trace of durations actually awaited
with `await asyncio.sleep(...)`.  Note that `_handle_rate_limit` is a plain
synchronous method: the `asyncio.sleep(wait)` coroutines it creates are never
awaited, so the 429 path contributes nothing to the awaited trace. -/

/-- What one HTTP request attempt does. -/
inductive AttemptOutcome where
  /-- A response `raise_for_status` accepts. -/
  | success
  /-- HTTP 429 with the given `Retry-After` header value (if present). -/
  | rateLimited (retryAfter : Option String)
  /-- `httpx.HTTPStatusError` with status ≥ 500 (retried). -/
  | serverError (code : Nat)
  /-- `httpx.HTTPStatusError` with status < 500 (not retried). -/
  | clientError (code : Nat) (msg : String)
  /-- `httpx.TimeoutException` (retried). -/
  | timeout
  /-- Any other exception, with its type name and message (not retried). -/
  | otherError (typeName msg : String)
  deriving Repr, DecidableEq

/-- An entry of `failed_urls` (the wall-clock `occurred_at` is omitted). -/
structure FailureRecord where
  source : String
  url : String
  error_message : String
  error_type : String
  deriving Repr, DecidableEq

/-- The wait `_handle_rate_limit` computes from the `Retry-After` header:
the parsed integer when the header is a truthy string that `int()` accepts,
60 when `int()` raises `ValueError`, 30 when the header is absent (or the
falsy empty string). -/
def rate_limit_wait (retryAfter : Option String) : Int :=
  match retryAfter with
  | some s =>
    if s = "" then 30
    else
      match pyParseInt s with
      | some n => n
      | none => 60
  | none => 30

/-- The `while retry_count < self.max_retries` loop of `_retry_request`.
`fuel = maxRetries - retryCount` counts the remaining loop iterations.  The
429 branch computes `rate_limit_wait` but `continue`s without awaiting
anything; the server-error and timeout branches await the exponential backoff
`2^(retry_count - 1) + jitter` when another iteration remains. -/
def retryLoop (sourceName url : String) (maxRetries : Nat) (jitter : Nat → Rat)
    (attempt : Nat → AttemptOutcome) :
    Nat → Nat → List FailureRecord → List Rat → Bool × List FailureRecord × List Rat
  | _, 0, records, sleeps =>
    (false, records ++ [⟨sourceName, url, "Max retries exceeded", "MaxRetriesError"⟩], sleeps)
  | retryCount, fuel + 1, records, sleeps =>
    match attempt retryCount with
    | .success => (true, records, sleeps)
    | .rateLimited _ =>
      -- `_handle_rate_limit(response)` runs, but its `asyncio.sleep` is never
      -- awaited; `continue` jumps straight back to the loop head.
      retryLoop sourceName url maxRetries jitter attempt (retryCount + 1) fuel records sleeps
    | .serverError _ =>
      let rc := retryCount + 1
      if rc < maxRetries then
        retryLoop sourceName url maxRetries jitter attempt rc fuel records
          (sleeps ++ [(2 : Rat) ^ (rc - 1) + jitter retryCount])
      else
        retryLoop sourceName url maxRetries jitter attempt rc fuel records sleeps
    | .timeout =>
      let rc := retryCount + 1
      if rc < maxRetries then
        retryLoop sourceName url maxRetries jitter attempt rc fuel records
          (sleeps ++ [(2 : Rat) ^ (rc - 1) + jitter retryCount])
      else
        retryLoop sourceName url maxRetries jitter attempt rc fuel records sleeps
    | .clientError _ msg =>
      (false, records ++ [⟨sourceName, url, msg, "HTTPStatusError"⟩], sleeps)
    | .otherError ty msg =>
      (false, records ++ [⟨sourceName, url, msg, ty⟩], sleeps)

/-- `BaseScraper._retry_request` starting with `retry_count = 0` and an empty
`failed_urls` list: returns (response obtained?, failure records, awaited
sleep durations). -/
def retry_request (sourceName url : String) (maxRetries : Nat) (jitter : Nat → Rat)
    (attempt : Nat → AttemptOutcome) : Bool × List FailureRecord × List Rat :=
  retryLoop sourceName url maxRetries jitter attempt 0 maxRetries [] []

/-! ## Claims -/

/-- Claim C3: texts sharing the same first `token_limit` lowercase word tokens
after URL-stripping hash identically — regardless of casing, punctuation, or
content beyond the token limit — and the hash is the lowercase-hex SHA-1
digest of the first `token_limit` tokens joined by single spaces, UTF-8
encoded. -/
theorem fingerprint_token_determinism (tokenLimit : Nat) (t1 t2 : String)
    (h : (tokenize t1).take tokenLimit = (tokenize t2).take tokenLimit) :
    generate_hash tokenLimit t1 = generate_hash tokenLimit t2 ∧
    generate_hash tokenLimit t1 =
      sha1Hex (strUtf8 (String.intercalate " " ((tokenize t1).take tokenLimit))) := by
  refine ⟨?_, rfl⟩
  unfold generate_hash
  rw [h]

/-- Claim C3 witness: two texts differing in casing, punctuation and an
embedded URL but with equal token sequences receive equal fingerprints. -/
theorem fingerprint_token_determinism_witness :
    (tokenize "Hello, WORLD! See https://example.com/a now").take 120 =
      (tokenize "hello world see now").take 120 ∧
    generate_hash 120 "Hello, WORLD! See https://example.com/a now" =
      generate_hash 120 "hello world see now" :=
  ⟨by decide,
   (fingerprint_token_determinism 120 "Hello, WORLD! See https://example.com/a now"
      "hello world see now" (by decide)).1⟩

/-- Claim C5: `get_mean_tokens_per_complaint` is the arithmetic mean of
`tokens_used` over successful in-window records (0 when none), the guard
fails exactly when that mean exceeds the ceiling, and on the history
`[400, 500, 300]` (all successful, in window) the mean over 30 days is 400,
the guard fails with ceiling 350 and passes with ceiling 500. -/
theorem cost_guard_mean_semantics :
    (∀ (maxT : Nat) (history : List UsageRecord) (now : Int) (days : Nat),
      ((check_cost_guard maxT history now days).passed = false ↔
        get_mean_tokens_per_complaint history now days > (maxT : Rat)) ∧
      (check_cost_guard maxT history now days).mean_tokens_per_complaint =
        get_mean_tokens_per_complaint history now days ∧
      (∀ recs, recs = (recentRecords history now days).filter (fun r => r.idea_generated) →
        get_mean_tokens_per_complaint history now days =
          if recs.isEmpty then 0
          else ((recs.map (fun r => (r.tokens_used : Rat))).sum) / (recs.length : Rat))) ∧
    (get_mean_tokens_per_complaint
        [⟨86400, 10, 400, 1, true, 40⟩, ⟨86400, 10, 500, 1, true, 50⟩,
         ⟨86400, 10, 300, 1, true, 30⟩] 2592000 30 = 400 ∧
      (check_cost_guard 350
        [⟨86400, 10, 400, 1, true, 40⟩, ⟨86400, 10, 500, 1, true, 50⟩,
         ⟨86400, 10, 300, 1, true, 30⟩] 2592000 30).passed = false ∧
      (check_cost_guard 500
        [⟨86400, 10, 400, 1, true, 40⟩, ⟨86400, 10, 500, 1, true, 50⟩,
         ⟨86400, 10, 300, 1, true, 30⟩] 2592000 30).passed = true) := by
  constructor
  · intro maxT history now days
    refine ⟨?_, rfl, ?_⟩
    · simp [check_cost_guard]
    · intro recs hrecs
      subst hrecs
      rfl
  · have hfilter :
        (recentRecords
            [⟨86400, 10, 400, 1, true, 40⟩, ⟨86400, 10, 500, 1, true, 50⟩,
             ⟨86400, 10, 300, 1, true, 30⟩] 2592000 30).filter (fun r => r.idea_generated) =
          [⟨86400, 10, 400, 1, true, 40⟩, ⟨86400, 10, 500, 1, true, 50⟩,
           ⟨86400, 10, 300, 1, true, 30⟩] := by
      decide
    have hmean :
        get_mean_tokens_per_complaint
          [⟨86400, 10, 400, 1, true, 40⟩, ⟨86400, 10, 500, 1, true, 50⟩,
           ⟨86400, 10, 300, 1, true, 30⟩] 2592000 30 = 400 := by
      unfold get_mean_tokens_per_complaint
      rw [hfilter]
      norm_num
    refine ⟨hmean, ?_, ?_⟩ <;> simp [check_cost_guard, hmean] <;> norm_num

/-- Claim C5 witness: the general equivalence applied at the concrete
`[400, 500, 300]` scenario with ceiling 350. -/
theorem cost_guard_mean_semantics_witness :
    ((check_cost_guard 350
        [⟨86400, 10, 400, 1, true, 40⟩, ⟨86400, 10, 500, 1, true, 50⟩,
         ⟨86400, 10, 300, 1, true, 30⟩] 2592000 30).passed = false ↔
      get_mean_tokens_per_complaint
        [⟨86400, 10, 400, 1, true, 40⟩, ⟨86400, 10, 500, 1, true, 50⟩,
         ⟨86400, 10, 300, 1, true, 30⟩] 2592000 30 > (350 : Rat)) :=
  (cost_guard_mean_semantics.1 350
    [⟨86400, 10, 400, 1, true, 40⟩, ⟨86400, 10, 500, 1, true, 50⟩,
     ⟨86400, 10, 300, 1, true, 30⟩] 2592000 30).1

/-- Appending an element and then truncating to the last 1000 entries keeps
it as the last element. -/
theorem getLast?_append_truncate {α : Type} (l : List α) (r : α) :
    (if (l ++ [r]).length > 1000 then
        (l ++ [r]).drop ((l ++ [r]).length - 1000)
      else (l ++ [r])).getLast? = some r := by
  split
  · rw [List.drop_append_of_le_length
      (by simp only [List.length_append, List.length_singleton]; omega)]
    exact List.getLast?_concat _
  · exact List.getLast?_concat _

/-- Claim C10: `record_usage` totally appends a record whose
`tokens_per_char` is `tokens_used / len(text)` for non-empty text and `0` for
empty text — the division is guarded by the truthiness test, so the empty
complaint cannot divide by zero. -/
theorem record_usage_tokens_per_char_guarded (history : List UsageRecord) (now : Int)
    (text : String) (tokens : Nat) (cost : Rat) (gen : Bool) :
    (record_usage history now text tokens cost gen).getLast? =
      some
        { timestamp := now
          complaint_length := text.length
          tokens_used := tokens
          cost := cost
          idea_generated := gen
          tokens_per_char :=
            if text = "" then 0 else (tokens : Rat) / (text.length : Rat) } :=
  getLast?_append_truncate history _

/-- Claim C6 (code bug exhibit): `_handle_rate_limit` computes the waits the
claim describes — the parsed `Retry-After` seconds, 60 on an unparseable
header, 30 on an absent header — but the retry loop awaits none of them: a
fetch whose every attempt is a 429 with `Retry-After: 5` performs zero awaited
suspensions. -/
theorem rate_limit_wait_computed_but_not_awaited :
    rate_limit_wait (some "5") = 5 ∧
    rate_limit_wait (some "in a while") = 60 ∧
    rate_limit_wait none = 30 ∧
    (retry_request "reddit" "https://r.example/x" 3 (fun _ => (0 : Rat))
        (fun _ => AttemptOutcome.rateLimited (some "5"))).2.2 = [] ∧
    (retry_request "reddit" "https://r.example/x" 3 (fun _ => (0 : Rat))
        (fun _ => AttemptOutcome.rateLimited (some "5"))).1 = false := by
  refine ⟨by decide, by decide, by decide, rfl, rfl⟩

/-- Claim C1: for a well-formed candidate, the pipeline admits it past the
filter stage iff the sentiment filter reports it negative or the idea/request
keyword check matches; a candidate that is neither is counted as
`filtered_sentiment` and produces no `Complaint`, while an admitted candidate
reaches the deduplication stage (it is either accepted or counted as a
duplicate). -/
theorem admission_rule_iff (sa : SentimentAnalyzer) (tokenLimit : Nat)
    (existingHashes : List String) (acc : List Complaint) (bh : List String)
    (stats : BatchStats) (data : RawItem)
    (hc : data.content ≠ "") (hs : data.source ≠ "") :
    ((is_negative_complaint sa data.content || is_idea_or_request data.content) = false →
      batchStep sa tokenLimit existingHashes (acc, bh, stats) data =
        (acc, bh, { stats with filtered_sentiment := stats.filtered_sentiment + 1 })) ∧
    ((is_negative_complaint sa data.content || is_idea_or_request data.content) = true →
      (batchStep sa tokenLimit existingHashes (acc, bh, stats) data).2.2.filtered_sentiment =
        stats.filtered_sentiment ∧
      ((batchStep sa tokenLimit existingHashes (acc, bh, stats) data).1 =
          acc ++ [mkComplaint sa tokenLimit data] ∨
        (batchStep sa tokenLimit existingHashes (acc, bh, stats) data).2.2.filtered_duplicate =
          stats.filtered_duplicate + 1)) := by
  constructor
  · intro hgate
    unfold batchStep
    dsimp only
    rw [if_neg (by simp [hc, hs]), if_pos (by simp [hgate])]
  · intro hgate
    unfold batchStep
    dsimp only
    rw [if_neg (by simp [hc, hs]), if_neg (by simp [hgate])]
    split
    · exact ⟨rfl, Or.inr rfl⟩
    · exact ⟨rfl, Or.inl rfl⟩

/-- Claim C1 witness: a neutral-sentiment candidate matching the keyword
`"i wish"` is admitted and accepted. -/
theorem admission_rule_iff_witness :
    (is_negative_complaint ⟨fun _ => 0, 0⟩ "i wish it synced offline" ||
      is_idea_or_request "i wish it synced offline") = true ∧
    ((batchStep ⟨fun _ => 0, 0⟩ 120 [] ([], [], ⟨1, 0, 0, 0, 0, 0⟩)
        ⟨"i wish it synced offline", "reddit", none⟩).2.2.filtered_sentiment = 0 ∧
      ((batchStep ⟨fun _ => 0, 0⟩ 120 [] ([], [], ⟨1, 0, 0, 0, 0, 0⟩)
          ⟨"i wish it synced offline", "reddit", none⟩).1 =
          [] ++ [mkComplaint ⟨fun _ => 0, 0⟩ 120 ⟨"i wish it synced offline", "reddit", none⟩] ∨
        (batchStep ⟨fun _ => 0, 0⟩ 120 [] ([], [], ⟨1, 0, 0, 0, 0, 0⟩)
          ⟨"i wish it synced offline", "reddit", none⟩).2.2.filtered_duplicate = 0 + 1)) :=
  ⟨by decide,
   (admission_rule_iff ⟨fun _ => 0, 0⟩ 120 [] [] [] ⟨1, 0, 0, 0, 0, 0⟩
      ⟨"i wish it synced offline", "reddit", none⟩ (by decide) (by decide)).2 (by decide)⟩

/-- The fold of `batch_process_complaints` keeps `total` unchanged, adds
exactly one to one of the four partition counters per candidate, and grows
the accepted list in step with `processed`. -/
theorem batch_fold_invariant (sa : SentimentAnalyzer) (tokenLimit : Nat)
    (existingHashes : List String) (items : List RawItem)
    (acc : List Complaint) (bh : List String) (stats : BatchStats) :
    (items.foldl (batchStep sa tokenLimit existingHashes) (acc, bh, stats)).2.2.total =
      stats.total ∧
    (items.foldl (batchStep sa tokenLimit existingHashes) (acc, bh, stats)).2.2.processed +
      (items.foldl (batchStep sa tokenLimit existingHashes) (acc, bh, stats)).2.2.filtered_sentiment +
      (items.foldl (batchStep sa tokenLimit existingHashes) (acc, bh, stats)).2.2.filtered_duplicate +
      (items.foldl (batchStep sa tokenLimit existingHashes) (acc, bh, stats)).2.2.errors =
      stats.processed + stats.filtered_sentiment + stats.filtered_duplicate + stats.errors +
        items.length ∧
    (items.foldl (batchStep sa tokenLimit existingHashes) (acc, bh, stats)).1.length +
      stats.processed =
      acc.length +
        (items.foldl (batchStep sa tokenLimit existingHashes) (acc, bh, stats)).2.2.processed := by
  induction items generalizing acc bh stats with
  | nil => simp
  | cons hd tl ih =>
    simp only [List.foldl_cons, List.length_cons]
    have hstep :
        (batchStep sa tokenLimit existingHashes (acc, bh, stats) hd).2.2.total = stats.total ∧
        (batchStep sa tokenLimit existingHashes (acc, bh, stats) hd).2.2.processed +
          (batchStep sa tokenLimit existingHashes (acc, bh, stats) hd).2.2.filtered_sentiment +
          (batchStep sa tokenLimit existingHashes (acc, bh, stats) hd).2.2.filtered_duplicate +
          (batchStep sa tokenLimit existingHashes (acc, bh, stats) hd).2.2.errors =
          stats.processed + stats.filtered_sentiment + stats.filtered_duplicate +
            stats.errors + 1 ∧
        (batchStep sa tokenLimit existingHashes (acc, bh, stats) hd).1.length +
          stats.processed =
          acc.length + (batchStep sa tokenLimit existingHashes (acc, bh, stats) hd).2.2.processed := by
      unfold batchStep
      dsimp only
      by_cases h1 : (decide (hd.content = "") || decide (hd.source = "")) = true
      · rw [if_pos h1]
        dsimp only
        exact ⟨rfl, by omega, by omega⟩
      · rw [if_neg h1]
        by_cases h2 :
            (!(is_negative_complaint sa hd.content || is_idea_or_request hd.content)) = true
        · rw [if_pos h2]
          dsimp only
          exact ⟨rfl, by omega, by omega⟩
        · rw [if_neg h2]
          by_cases h3 :
              (bh.contains (generate_hash tokenLimit hd.content) ||
                existingHashes.contains (generate_hash tokenLimit hd.content)) = true
          · rw [if_pos h3]
            dsimp only
            exact ⟨rfl, by omega, by omega⟩
          · rw [if_neg h3]
            dsimp only
            refine ⟨rfl, by omega, ?_⟩
            simp only [List.length_append, List.length_singleton]
            omega
    obtain ⟨h1, h2, h3⟩ := hstep
    obtain ⟨i1, i2, i3⟩ :=
      ih (batchStep sa tokenLimit existingHashes (acc, bh, stats) hd).1
        (batchStep sa tokenLimit existingHashes (acc, bh, stats) hd).2.1
        (batchStep sa tokenLimit existingHashes (acc, bh, stats) hd).2.2
    rw [show ((batchStep sa tokenLimit existingHashes (acc, bh, stats) hd).1,
        (batchStep sa tokenLimit existingHashes (acc, bh, stats) hd).2.1,
        (batchStep sa tokenLimit existingHashes (acc, bh, stats) hd).2.2) =
        batchStep sa tokenLimit existingHashes (acc, bh, stats) hd from rfl] at i1 i2 i3
    refine ⟨by rw [i1, h1], by omega, by omega⟩

/-- Claim C9: batch processing is total, its `total` equals the input length,
the four counters partition the input exactly
(`total = processed + filtered_sentiment + filtered_duplicate + errors`), and
`processed` equals the number of `Complaint` objects returned. -/
theorem batch_stats_partition (sa : SentimentAnalyzer) (tokenLimit : Nat)
    (existingHashes : List String) (items : List RawItem) :
    (batch_process_complaints sa tokenLimit existingHashes items).2.total = items.length ∧
    (batch_process_complaints sa tokenLimit existingHashes items).2.total =
      (batch_process_complaints sa tokenLimit existingHashes items).2.processed +
      (batch_process_complaints sa tokenLimit existingHashes items).2.filtered_sentiment +
      (batch_process_complaints sa tokenLimit existingHashes items).2.filtered_duplicate +
      (batch_process_complaints sa tokenLimit existingHashes items).2.errors ∧
    (batch_process_complaints sa tokenLimit existingHashes items).1.length =
      (batch_process_complaints sa tokenLimit existingHashes items).2.processed := by
  obtain ⟨h1, h2, h3⟩ :=
    batch_fold_invariant sa tokenLimit existingHashes items [] []
      ⟨items.length, 0, 0, 0, 0, 0⟩
  dsimp only [batch_process_complaints]
  dsimp only at h1 h2 h3
  simp only [List.length_nil] at h3
  refine ⟨h1, by rw [h1]; omega, by omega⟩

/-- A response payload with all required fields, valid scores except possibly
`score_market`, and a non-empty idea text. -/
def mkScorePayload (m : Int) : List (String × PyVal) :=
  [("idea", .str "An offline sync companion app"),
   ("score_market", .int m), ("score_tech", .int 7), ("score_competition", .int 6),
   ("score_monetisation", .int 5), ("score_feasibility", .int 8), ("score_overall", .int 7)]

/-- Claim C4: validation demands every score field be an integer in `[1, 10]`:
any successfully validated payload has all six scores in range, and on a
payload whose only questionable field is `score_market = m`, validation
succeeds exactly when `1 ≤ m ≤ 10` and otherwise fails with an error naming
`score_market` (so 11 fails while 10 and 1 pass). -/
theorem score_validation_range :
    (∀ (payload : List (String × PyVal)) (d : List (String × PyVal)),
      parse_response (.ok payload) = .ok d →
      ∀ f ∈ score_fields, ∃ n : Int, payload.lookup f = some (.int n) ∧ 1 ≤ n ∧ n ≤ 10) ∧
    (∀ m : Int,
      parse_response (.ok (mkScorePayload m)) =
        if 1 ≤ m ∧ m ≤ 10 then .ok (mkScorePayload m)
        else .error ⟨"ValueError", "Invalid score for score_market: " ++ toString m⟩) := by
  constructor
  · intro payload d h f hf
    unfold parse_response at h
    split at h
    · exact absurd h (by simp)
    · rename_i idea_data hsc
      injection hsc with hpd
      subst hpd
      split at h
      · exact absurd h (by simp)
      · split at h
        · exact absurd h (by simp)
        · rename_i hsc2
          have hnotbad := List.find?_eq_none.mp hsc2 f hf
          have hok : scoreOk (payload.lookup f) = true := by
            revert hnotbad
            cases scoreOk (payload.lookup f) <;> simp
          cases hl : payload.lookup f with
          | none => rw [hl] at hok; simp [scoreOk] at hok
          | some v =>
            cases v with
            | str s => rw [hl] at hok; simp [scoreOk] at hok
            | int n =>
              rw [hl] at hok
              simp [scoreOk] at hok
              exact ⟨n, rfl, hok.1, hok.2⟩
            | float q => rw [hl] at hok; simp [scoreOk] at hok
            | none_ => rw [hl] at hok; simp [scoreOk] at hok
            | list xs => rw [hl] at hok; simp [scoreOk] at hok
  · intro m
    have hreq : List.find? (fun f => (List.lookup f (mkScorePayload m)).isNone) required_fields
        = none := by
      apply List.find?_eq_none.mpr
      intro x hx
      unfold required_fields at hx
      fin_cases hx <;> simp [mkScorePayload, List.lookup]
    have hmkt : List.lookup "score_market" (mkScorePayload m) = some (.int m) := by
      simp [mkScorePayload, List.lookup]
    have hidea : List.lookup "idea" (mkScorePayload m) =
        some (.str "An offline sync companion app") := by
      simp [mkScorePayload, List.lookup]
    have hsf : score_fields = ["score_market", "score_tech", "score_competition",
        "score_monetisation", "score_feasibility", "score_overall"] := by decide
    by_cases hm : 1 ≤ m ∧ m ≤ 10
    · have hsc : List.find? (fun f => !scoreOk (List.lookup f (mkScorePayload m))) score_fields
          = none := by
        apply List.find?_eq_none.mpr
        intro x hx
        rw [hsf] at hx
        fin_cases hx <;> simp [mkScorePayload, List.lookup, scoreOk, hm.1, hm.2]
      rw [if_pos hm]
      unfold parse_response
      dsimp only
      rw [hreq, hsc, hidea]
      rfl
    · have hbad : (!scoreOk (List.lookup "score_market" (mkScorePayload m))) = true := by
        rw [hmkt]
        simp [scoreOk]
        omega
      have hsc : List.find? (fun f => !scoreOk (List.lookup f (mkScorePayload m))) score_fields
          = some "score_market" := by
        rw [hsf]
        simp only [List.find?_cons]
        rw [hbad]
      rw [if_neg hm]
      unfold parse_response
      dsimp only
      rw [hreq, hsc]
      dsimp only
      rw [hmkt]
      rfl

/-- Claim C4 witness: the validation facts at `score_market` equal to 10, 11
and 1. -/
theorem score_validation_range_witness :
    (∃ n : Int, List.lookup "score_market" (mkScorePayload 10) = some (.int n) ∧
      1 ≤ n ∧ n ≤ 10) ∧
    parse_response (.ok (mkScorePayload 11)) =
      .error ⟨"ValueError", "Invalid score for score_market: " ++ toString (11 : Int)⟩ ∧
    parse_response (.ok (mkScorePayload 10)) = .ok (mkScorePayload 10) ∧
    parse_response (.ok (mkScorePayload 1)) = .ok (mkScorePayload 1) :=
  ⟨score_validation_range.1 (mkScorePayload 10) (mkScorePayload 10) (by rfl)
      "score_market" (by decide),
   (score_validation_range.2 11).trans (if_neg (by omega)),
   (score_validation_range.2 10).trans (if_pos (by omega)),
   (score_validation_range.2 1).trans (if_pos (by omega))⟩

/-- If `p` is a leading segment of `a`, it is one of `a ++ rest`. -/
theorem startsWithList_append_of_true (p : List Char) :
    ∀ (a rest : List Char), startsWithList p a = true →
      startsWithList p (a ++ rest) = true := by
  induction p with
  | nil => intro a rest _; rfl
  | cons c cs ih =>
    intro a rest h
    cases a with
    | nil => simp [startsWithList] at h
    | cons b bs =>
      simp only [startsWithList, Bool.and_eq_true] at h ⊢
      exact ⟨h.1, ih bs rest h.2⟩

/-- If `p` fails to lead `a` and is no longer than `a`, it also fails to lead
`a ++ rest` (the mismatch lies inside `a`). -/
theorem startsWithList_append_of_false (p : List Char) :
    ∀ (a rest : List Char), startsWithList p a = false → p.length ≤ a.length →
      startsWithList p (a ++ rest) = false := by
  induction p with
  | nil => intro a rest h _; simp [startsWithList] at h
  | cons c cs ih =>
    intro a rest h hlen
    cases a with
    | nil => simp at hlen
    | cons b bs =>
      simp only [startsWithList, Bool.and_eq_false_iff] at h ⊢
      rcases h with h | h
      · exact Or.inl h
      · exact Or.inr (ih bs rest h (by simpa using hlen))

/-- Claim C8 counterexample: a JSON-decode failure and a schema-validation
failure (missing `idea` field) surface with the *same* error kind — both are
`ValueError` — so the two failure modes are not distinct error kinds; the
decode failure is coerced into the kind the schema failures use. -/
theorem parse_error_kinds_coincide :
    ∃ e1 e2 : PyErr,
      parse_response (.error "Expecting value: line 1 column 1 (char 0)") = .error e1 ∧
      parse_response (.ok []) = .error e2 ∧
      e1.kind = e2.kind :=
  ⟨⟨"ValueError", "Invalid JSON response: Expecting value: line 1 column 1 (char 0)"⟩,
   ⟨"ValueError", "Missing required field: idea"⟩, rfl, rfl, rfl⟩

/-- Claim C8 as amended: both failure modes reach the caller as `ValueError`;
the JSON-decode failure is re-raised with the message prefix
`"Invalid JSON"` (in full, `"Invalid JSON response: ..."`), a prefix no
schema-validation failure message ever carries, so the caller can distinguish
the two by message content though not by exception class. -/
theorem parse_error_distinguished_by_message :
    (∀ e, parse_response (.error e) =
        .error ⟨"ValueError", "Invalid JSON response: " ++ e⟩ ∧
      strStartsWith "Invalid JSON" ("Invalid JSON response: " ++ e) = true) ∧
    (∀ (payload : List (String × PyVal)) (err : PyErr),
      parse_response (.ok payload) = .error err →
      err.kind = "ValueError" ∧ strStartsWith "Invalid JSON" err.msg = false) := by
  constructor
  · intro e
    refine ⟨rfl, ?_⟩
    show startsWithList _ ("Invalid JSON response: " ++ e).data = true
    rw [String.data_append]
    exact startsWithList_append_of_true _ _ _ (by decide)
  · intro payload err h
    unfold parse_response at h
    split at h
    · rename_i e heq
      exact absurd heq (by simp)
    · rename_i idea_data hsc
      injection hsc with hpd
      subst hpd
      split at h
      · rename_i f hreq
        injection h with h
        subst h
        refine ⟨rfl, ?_⟩
        show startsWithList _ ("Missing required field: " ++ f).data = false
        rw [String.data_append]
        exact startsWithList_append_of_false _ _ _ (by decide) (by decide)
      · split at h
        · rename_i f hsc2
          injection h with h
          subst h
          refine ⟨rfl, ?_⟩
          show startsWithList _
            ("Invalid score for " ++ f ++ ": " ++
              pyValStr ((List.lookup f payload).getD PyVal.none_)).data = false
          rw [String.data_append, String.data_append, String.data_append,
            List.append_assoc, List.append_assoc]
          exact startsWithList_append_of_false _ _ _ (by decide) (by decide)
        · split at h
          · split at h
            · injection h with h
              subst h
              exact ⟨rfl, by decide⟩
            · simp at h
          · injection h with h
            subst h
            exact ⟨rfl, by decide⟩

/-- Claim C8 witness: the amended theorem applied to the schema failure of the
empty payload. -/
theorem parse_error_distinguished_by_message_witness :
    (PyErr.mk "ValueError" "Missing required field: idea").kind = "ValueError" ∧
    strStartsWith "Invalid JSON" (PyErr.mk "ValueError" "Missing required field: idea").msg =
      false :=
  parse_error_distinguished_by_message.2 [] ⟨"ValueError", "Missing required field: idea"⟩ rfl

/-- If the attempts from `rc` on are `k` timeouts followed by a success, all
within the retry budget, the loop returns success and appends no failure
record. -/
theorem retryLoop_timeouts_then_success (src url : String) (maxR : Nat) (jitter : Nat → Rat)
    (attempt : Nat → AttemptOutcome) :
    ∀ (k rc : Nat) (records : List FailureRecord) (sleeps : List Rat),
      rc + k < maxR →
      (∀ j, j < k → attempt (rc + j) = .timeout) →
      attempt (rc + k) = .success →
      (retryLoop src url maxR jitter attempt rc (maxR - rc) records sleeps).1 = true ∧
      (retryLoop src url maxR jitter attempt rc (maxR - rc) records sleeps).2.1 = records := by
  intro k
  induction k with
  | zero =>
    intro rc records sleeps hlt _ hsucc
    obtain ⟨f, hf⟩ : ∃ f, maxR - rc = f + 1 := ⟨maxR - rc - 1, by omega⟩
    rw [hf]
    rw [Nat.add_zero] at hsucc
    simp [retryLoop, hsucc]
  | succ k ih =>
    intro rc records sleeps hlt hto hsucc
    obtain ⟨f, hf⟩ : ∃ f, maxR - rc = f + 1 := ⟨maxR - rc - 1, by omega⟩
    rw [hf]
    have h0 : attempt rc = .timeout := by simpa using hto 0 (by omega)
    have hrc1 : rc + 1 < maxR := by omega
    have hff : f = maxR - (rc + 1) := by omega
    simp only [retryLoop, h0]
    rw [if_pos hrc1]
    subst hff
    obtain ⟨r1, r2⟩ := ih (rc + 1) records
      (sleeps ++ [(2 : Rat) ^ (rc + 1 - 1) + jitter rc])
      (by omega)
      (fun j hj => by
        have := hto (j + 1) (by omega)
        rwa [show rc + (j + 1) = rc + 1 + j by omega] at this)
      (by rwa [show rc + 1 + k = rc + (k + 1) by omega])
    exact ⟨r1, r2⟩

/-- If every attempt inside the retry budget times out, the loop exhausts its
fuel and appends exactly one `MaxRetriesError` record. -/
theorem retryLoop_all_timeouts (src url : String) (maxR : Nat) (jitter : Nat → Rat)
    (attempt : Nat → AttemptOutcome) (records : List FailureRecord) :
    ∀ (fuel rc : Nat) (sleeps : List Rat),
      fuel = maxR - rc →
      (∀ j, rc ≤ j → j < maxR → attempt j = .timeout) →
      (retryLoop src url maxR jitter attempt rc fuel records sleeps).1 = false ∧
      (retryLoop src url maxR jitter attempt rc fuel records sleeps).2.1 =
        records ++ [⟨src, url, "Max retries exceeded", "MaxRetriesError"⟩] := by
  intro fuel
  induction fuel with
  | zero =>
    intro rc sleeps _ _
    simp [retryLoop]
  | succ f ih =>
    intro rc sleeps hfuel hto
    have hrc : rc < maxR := by omega
    have h0 : attempt rc = .timeout := hto rc (Nat.le_refl rc) hrc
    simp only [retryLoop, h0]
    split
    · exact ih (rc + 1) _ (by omega) (fun j h1 h2 => hto j (by omega) h2)
    · exact ih (rc + 1) _ (by omega) (fun j h1 h2 => hto j (by omega) h2)

/-- Claim C7: a fetch that times out on some leading attempts but succeeds on
an attempt within `max_retries` returns the response and records zero
FailureRecords; a fetch that times out on all `max_retries` attempts returns
failure and records exactly one FailureRecord of type `"MaxRetriesError"`. -/
theorem retry_timeout_semantics (src url : String) (maxR : Nat) (jitter : Nat → Rat)
    (attempt : Nat → AttemptOutcome) :
    (∀ i, i < maxR → (∀ j, j < i → attempt j = .timeout) → attempt i = .success →
      (retry_request src url maxR jitter attempt).1 = true ∧
      (retry_request src url maxR jitter attempt).2.1 = []) ∧
    ((∀ j, j < maxR → attempt j = .timeout) →
      (retry_request src url maxR jitter attempt).1 = false ∧
      (retry_request src url maxR jitter attempt).2.1 =
        [⟨src, url, "Max retries exceeded", "MaxRetriesError"⟩]) := by
  constructor
  · intro i hi hto hsucc
    have := retryLoop_timeouts_then_success src url maxR jitter attempt i 0 [] []
      (by omega) (fun j hj => by simpa using hto j hj) (by simpa using hsucc)
    rwa [Nat.sub_zero] at this
  · intro hto
    have := retryLoop_all_timeouts src url maxR jitter attempt [] maxR 0 []
      (by omega) (fun j _ h2 => hto j h2)
    simpa using this

/-- Claim C7 witness: with `max_retries = 3`, two timeouts then a success
yield a response with no failure records; three timeouts yield failure and the
single `MaxRetriesError` record. -/
theorem retry_timeout_semantics_witness :
    ((retry_request "reddit" "https://r.example/x" 3 (fun _ => (0 : Rat))
        (fun k => if k < 2 then AttemptOutcome.timeout else AttemptOutcome.success)).1 = true ∧
      (retry_request "reddit" "https://r.example/x" 3 (fun _ => (0 : Rat))
        (fun k => if k < 2 then AttemptOutcome.timeout else AttemptOutcome.success)).2.1 = []) ∧
    ((retry_request "reddit" "https://r.example/x" 3 (fun _ => (0 : Rat))
        (fun _ => AttemptOutcome.timeout)).1 = false ∧
      (retry_request "reddit" "https://r.example/x" 3 (fun _ => (0 : Rat))
        (fun _ => AttemptOutcome.timeout)).2.1 =
        [⟨"reddit", "https://r.example/x", "Max retries exceeded", "MaxRetriesError"⟩]) :=
  ⟨(retry_timeout_semantics "reddit" "https://r.example/x" 3 (fun _ => (0 : Rat))
      (fun k => if k < 2 then AttemptOutcome.timeout else AttemptOutcome.success)).1 2
      (by omega) (fun j hj => by simp [hj]) (by simp),
   (retry_timeout_semantics "reddit" "https://r.example/x" 3 (fun _ => (0 : Rat))
      (fun _ => AttemptOutcome.timeout)).2 (fun _ _ => rfl)⟩

/-- The batch loop body on an admissible, non-duplicate candidate: it appends
the constructed `Complaint` and registers the fingerprint in the in-batch
set. -/
theorem batchStep_accept (sa : SentimentAnalyzer) (tokenLimit : Nat)
    (existing : List String) (acc : List Complaint) (bh : List String)
    (stats : BatchStats) (data : RawItem)
    (hc : data.content ≠ "") (hs : data.source ≠ "")
    (hg : (is_negative_complaint sa data.content || is_idea_or_request data.content) = true)
    (hd : bh.contains (generate_hash tokenLimit data.content) = false)
    (he : existing.contains (generate_hash tokenLimit data.content) = false) :
    batchStep sa tokenLimit existing (acc, bh, stats) data =
      (acc ++ [mkComplaint sa tokenLimit data],
       generate_hash tokenLimit data.content :: bh,
       { stats with
           processed := stats.processed + 1
           filtered_idea :=
             stats.filtered_idea + (if is_idea_or_request data.content then 1 else 0) }) := by
  unfold batchStep
  dsimp only
  rw [if_neg (by simp [hc, hs]), if_neg (by simp [hg]),
    if_neg (by rw [hd, he]; simp)]

/-- The batch loop body on an admissible candidate whose fingerprint is
already known: it is dropped and only `filtered_duplicate` grows. -/
theorem batchStep_dup (sa : SentimentAnalyzer) (tokenLimit : Nat)
    (existing : List String) (acc : List Complaint) (bh : List String)
    (stats : BatchStats) (data : RawItem)
    (hc : data.content ≠ "") (hs : data.source ≠ "")
    (hg : (is_negative_complaint sa data.content || is_idea_or_request data.content) = true)
    (hdup : (bh.contains (generate_hash tokenLimit data.content) ||
      existing.contains (generate_hash tokenLimit data.content)) = true) :
    batchStep sa tokenLimit existing (acc, bh, stats) data =
      (acc, bh, { stats with filtered_duplicate := stats.filtered_duplicate + 1 }) := by
  unfold batchStep
  dsimp only
  rw [if_neg (by simp [hc, hs]), if_neg (by simp [hg]), if_pos hdup]

/-- Claim C2: candidates are processed in strict input order and the first
occurrence of a fingerprint wins: on input `[A, B, A', C]` where `A` and `A'`
fingerprint-collide and all four pass the admission filter and are new to the
persisted set, the result is `[complaint(A), complaint(B), complaint(C)]` —
`A'` is dropped, not `A`; and a candidate `D` whose fingerprint is already in
the pre-loaded persisted set is likewise dropped. -/
theorem batch_first_occurrence_wins (sa : SentimentAnalyzer) (tokenLimit : Nat)
    (existing : List String) (A B A' C D : RawItem)
    (hcA : A.content ≠ "") (hsA : A.source ≠ "")
    (hcB : B.content ≠ "") (hsB : B.source ≠ "")
    (hcA' : A'.content ≠ "") (hsA' : A'.source ≠ "")
    (hcC : C.content ≠ "") (hsC : C.source ≠ "")
    (hcD : D.content ≠ "") (hsD : D.source ≠ "")
    (gA : (is_negative_complaint sa A.content || is_idea_or_request A.content) = true)
    (gB : (is_negative_complaint sa B.content || is_idea_or_request B.content) = true)
    (gA' : (is_negative_complaint sa A'.content || is_idea_or_request A'.content) = true)
    (gC : (is_negative_complaint sa C.content || is_idea_or_request C.content) = true)
    (gD : (is_negative_complaint sa D.content || is_idea_or_request D.content) = true)
    (coll : generate_hash tokenLimit A'.content = generate_hash tokenLimit A.content)
    (nBA : generate_hash tokenLimit B.content ≠ generate_hash tokenLimit A.content)
    (nCA : generate_hash tokenLimit C.content ≠ generate_hash tokenLimit A.content)
    (nCB : generate_hash tokenLimit C.content ≠ generate_hash tokenLimit B.content)
    (eA : existing.contains (generate_hash tokenLimit A.content) = false)
    (eB : existing.contains (generate_hash tokenLimit B.content) = false)
    (eC : existing.contains (generate_hash tokenLimit C.content) = false)
    (eD : existing.contains (generate_hash tokenLimit D.content) = true) :
    (batch_process_complaints sa tokenLimit existing [A, B, A', C]).1 =
      [mkComplaint sa tokenLimit A, mkComplaint sa tokenLimit B, mkComplaint sa tokenLimit C] ∧
    (batch_process_complaints sa tokenLimit existing [A, B, A', C]).2.processed = 3 ∧
    (batch_process_complaints sa tokenLimit existing [A, B, A', C]).2.filtered_duplicate = 1 ∧
    (batch_process_complaints sa tokenLimit existing [D]).1 = [] ∧
    (batch_process_complaints sa tokenLimit existing [D]).2.filtered_duplicate = 1 := by
  have stepA := batchStep_accept sa tokenLimit existing [] []
    ⟨4, 0, 0, 0, 0, 0⟩ A hcA hsA gA (by simp) eA
  have stepD := batchStep_dup sa tokenLimit existing [] []
    ⟨1, 0, 0, 0, 0, 0⟩ D hcD hsD gD (by rw [eD, Bool.or_true])
  dsimp only [batch_process_complaints]
  simp only [List.foldl_cons, List.foldl_nil, List.length_cons, List.length_nil]
  rw [stepA]
  rw [batchStep_accept sa tokenLimit existing _ _ _ B hcB hsB gB
    (by simp [List.contains_cons, nBA]) eB]
  rw [batchStep_dup sa tokenLimit existing _ _ _ A' hcA' hsA' gA'
    (by simp [List.contains_cons, coll])]
  rw [batchStep_accept sa tokenLimit existing _ _ _ C hcC hsC gC
    (by simp [List.contains_cons, nCA, nCB]) eC]
  rw [stepD]
  refine ⟨by simp, rfl, rfl, rfl, rfl⟩

/-- Claim C2 witness: concrete texts where `A'` differs from `A` only in
casing and punctuation (so their fingerprints collide) and `D` duplicates a
persisted fingerprint. -/
theorem batch_first_occurrence_wins_witness :
    (batch_process_complaints ⟨fun _ => 0, 0⟩ 120
        [generate_hash 120 "i wish it had dark mode"]
        [⟨"i wish this app worked", "reddit", none⟩,
         ⟨"i wish for better maps", "reddit", none⟩,
         ⟨"I WISH, this app worked!", "google_play", none⟩,
         ⟨"i wish for offline chat", "reddit", none⟩]).1 =
      [mkComplaint ⟨fun _ => 0, 0⟩ 120 ⟨"i wish this app worked", "reddit", none⟩,
       mkComplaint ⟨fun _ => 0, 0⟩ 120 ⟨"i wish for better maps", "reddit", none⟩,
       mkComplaint ⟨fun _ => 0, 0⟩ 120 ⟨"i wish for offline chat", "reddit", none⟩] ∧
    (batch_process_complaints ⟨fun _ => 0, 0⟩ 120
        [generate_hash 120 "i wish it had dark mode"]
        [⟨"i wish this app worked", "reddit", none⟩,
         ⟨"i wish for better maps", "reddit", none⟩,
         ⟨"I WISH, this app worked!", "google_play", none⟩,
         ⟨"i wish for offline chat", "reddit", none⟩]).2.processed = 3 ∧
    (batch_process_complaints ⟨fun _ => 0, 0⟩ 120
        [generate_hash 120 "i wish it had dark mode"]
        [⟨"i wish this app worked", "reddit", none⟩,
         ⟨"i wish for better maps", "reddit", none⟩,
         ⟨"I WISH, this app worked!", "google_play", none⟩,
         ⟨"i wish for offline chat", "reddit", none⟩]).2.filtered_duplicate = 1 ∧
    (batch_process_complaints ⟨fun _ => 0, 0⟩ 120
        [generate_hash 120 "i wish it had dark mode"]
        [⟨"i wish it had dark mode", "reddit", none⟩]).1 = [] ∧
    (batch_process_complaints ⟨fun _ => 0, 0⟩ 120
        [generate_hash 120 "i wish it had dark mode"]
        [⟨"i wish it had dark mode", "reddit", none⟩]).2.filtered_duplicate = 1 :=
  batch_first_occurrence_wins ⟨fun _ => 0, 0⟩ 120
    [generate_hash 120 "i wish it had dark mode"]
    ⟨"i wish this app worked", "reddit", none⟩
    ⟨"i wish for better maps", "reddit", none⟩
    ⟨"I WISH, this app worked!", "google_play", none⟩
    ⟨"i wish for offline chat", "reddit", none⟩
    ⟨"i wish it had dark mode", "reddit", none⟩
    (by decide) (by decide) (by decide) (by decide) (by decide)
    (by decide) (by decide) (by decide) (by decide) (by decide)
    (by decide) (by decide) (by decide) (by decide) (by decide)
    (by decide) (by decide) (by decide) (by decide) (by decide)
    (by decide) (by decide) (by decide)

end AppIdeaHunter
